import Mathlib

/-!
Verification of the Smart Plant Monitoring System (Raspberry Pi client).

This file gives a shallow embedding of the orchestration core of the
repository — the pump safety controller (`RaspberryPi/pump.py`), the
resilient API client (`RaspberryPi/api_client.py`), the sensor validity
check (`sensors.py`) and the orchestrator task bodies (`main.py`) — and
proves or refutes the specification's claims about them.

Modelling conventions:
* Time is an explicit rational-valued clock threaded through each
  operation; `time.sleep(d)` advances the clock by `d` and every other
  primitive takes zero time.  `time.time()` reads the clock.
* Machine floats of the source are modelled as `ℚ`.
* A fallible actuator write (`_set_pump_state`) consumes one entry of an
  environment list `List (Option String)`: `none` means the GPIO write
  succeeded, `some msg` means it raised an exception with message `msg`.
  An exhausted list means success.
* HTTP attempts consume an oracle `ℕ → Option ℕ`: `none` is a
  timeout/connection error, `some code` is a response with that status.
* Python dictionaries with a fixed key set are structures; a key that may
  be absent is an `Option` field.
-/

/-- Configuration constants of `config.py`, with the repository's default
values.  Theorems are stated over an arbitrary `Config` unless a claim
pins a concrete value. -/
structure Config where
  PUMP_MAX_DURATION : ℚ := 10
  PUMP_MIN_INTERVAL : ℚ := 300
  API_MAX_RETRIES : ℕ := 3
  API_RETRY_DELAY : ℚ := 5
  TELEMETRY_INTERVAL : ℚ := 15
  IMAGE_CAPTURE_INTERVAL : ℚ := 300
  COMMAND_POLL_INTERVAL : ℚ := 10
  AUTO_WATER_DURATION : ℚ := 5
  AUTO_WATER_CHECK_INTERVAL : ℚ := 60
  ENABLE_AUTO_WATERING : Bool := true
  ENABLE_SAFETY_CHECKS : Bool := true
  SAFETY_MAX_TEMP : ℚ := 50
  SAFETY_MAX_HUMIDITY : ℚ := 100
deriving Repr, DecidableEq

/-- The default configuration shipped in `config.py`. -/
def defaultConfig : Config := {}

/-- Python's `int()` applied to a float: truncation toward zero. -/
def pyInt (x : ℚ) : ℤ := if 0 ≤ x then ⌊x⌋ else ⌈x⌉

namespace Pump

/-- Mutable state of `PumpController` (`pump.py`), plus the physical
relay line it drives.  `last_activation_time` starts at `0` and
`total_activations` at `0`, as in `__init__`. -/
structure PumpState where
  last_activation_time : ℚ
  total_activations : ℕ
  is_running : Bool
  relay_on : Bool
deriving Repr, DecidableEq

/-- Initial controller state (`__init__`: counter `0`, timestamps `0`,
not running, relay driven off). -/
def initState : PumpState :=
  { last_activation_time := 0, total_activations := 0,
    is_running := false, relay_on := false }

/-- Actuator environment: one entry per `_set_pump_state` call, `none`
for a successful GPIO write, `some msg` for a raised exception. -/
abbrev ActEnv : Type := List (Option String)

/-- Consume the next actuator-write outcome; an exhausted environment
means the write succeeds. -/
def envNext : ActEnv → Option String × ActEnv
  | [] => (none, [])
  | e :: r => (e, r)

/-- The dictionary returned by `PumpController.activate`.  The success
dictionary carries a timestamp; the failure dictionaries do not. -/
structure ActResult where
  success : Bool
  reason : String
  duration : ℚ
  timestamp : Option ℚ
deriving Repr, DecidableEq

/-- Either `activate` returned a dictionary, or an exception escaped it
(which in the source propagates to the caller). -/
inductive ActOutcome where
  | ret (r : ActResult)
  | raised (msg : String)
deriving Repr, DecidableEq

/-- Result of one `activate` call: its outcome, the controller state,
the clock and the remaining actuator environment after the call. -/
structure ActStep where
  outcome : ActOutcome
  state : PumpState
  clock : ℚ
  env : ActEnv
deriving Repr, DecidableEq

/-- `PumpController.can_activate`: rejects when the pump is running, or
when less than `PUMP_MIN_INTERVAL` elapsed since `last_activation_time`;
`remaining` is `int(PUMP_MIN_INTERVAL - time_since_last)`. -/
def can_activate (cfg : Config) (st : PumpState) (now : ℚ) :
    Bool × Option String :=
  if st.is_running then
    (false, some "Pump already running")
  else
    let time_since_last := now - st.last_activation_time
    if time_since_last < cfg.PUMP_MIN_INTERVAL then
      let remaining := pyInt (cfg.PUMP_MIN_INTERVAL - time_since_last)
      (false, some ("Must wait " ++ toString remaining ++
        "s before next activation"))
    else
      (true, none)

/-- The `except` branch of `activate`: one more off-write
(`_set_pump_state(False)`); if it succeeds, `is_running` is cleared and
an error dictionary is returned; if it raises too, the new exception
escapes `activate` with `is_running` left as it was. -/
def activateHandler (st : PumpState) (clock : ℚ) (env : ActEnv)
    (msg : String) : ActStep :=
  match envNext env with
  | (some msg2, env1) =>
      { outcome := .raised msg2, state := st, clock := clock, env := env1 }
  | (none, env1) =>
      { outcome := .ret { success := false, reason := "Error: " ++ msg,
                          duration := 0, timestamp := none },
        state := { st with relay_on := false, is_running := false },
        clock := clock, env := env1 }

/-- `PumpController.activate(duration, reason)`: clamp the duration to
`PUMP_MAX_DURATION`, run the safety checks, then drive the relay on,
sleep for the clamped duration, drive it off, stamp
`last_activation_time`, bump `total_activations` and clear `is_running`.
Any actuator fault diverts to `activateHandler`. -/
def activate (cfg : Config) (st : PumpState) (clock : ℚ) (env : ActEnv)
    (duration : ℚ) (reason : String) : ActStep :=
  let d := min duration cfg.PUMP_MAX_DURATION
  let ca := can_activate cfg st clock
  if ca.1 then
    let st1 := { st with is_running := true }
    let start_time := clock
    match envNext env with
    | (some msg, env1) => activateHandler st1 clock env1 msg
    | (none, env1) =>
      let st2 := { st1 with relay_on := true }
      let clock2 := clock + d
      match envNext env1 with
      | (some msg, env2) => activateHandler st2 clock2 env2 msg
      | (none, env2) =>
        let st3 := { st2 with relay_on := false }
        let actual_duration := clock2 - start_time
        let st4 :=
          { st3 with
            last_activation_time := clock2,
            total_activations := st3.total_activations + 1,
            is_running := false }
        { outcome := .ret { success := true, reason := reason,
                            duration := actual_duration,
                            timestamp := some clock2 },
          state := st4, clock := clock2, env := env2 }
  else
    { outcome := .ret { success := false, reason := ca.2.getD "",
                        duration := 0, timestamp := none },
      state := st, clock := clock, env := env }

/-- Result of `emergency_stop`: `raised` records an exception escaping
the method (the source catches every exception from the off-write, so it
is `none` by construction, mirroring the `try`/`except`). -/
structure StopStep where
  raised : Option String
  state : PumpState
  env : ActEnv
deriving Repr, DecidableEq

/-- `PumpController.emergency_stop`: attempt the off-write inside a
`try`/`except` that swallows any exception, then clear `is_running`. -/
def emergency_stop (st : PumpState) (env : ActEnv) : StopStep :=
  match envNext env with
  | (none, env1) =>
      { raised := none,
        state := { st with relay_on := false, is_running := false },
        env := env1 }
  | (some _, env1) =>
      { raised := none,
        state := { st with is_running := false },
        env := env1 }

end Pump

namespace Client

/-- Health-tracking state of `APIClient` (`api_client.py`):
`last_successful_request` starts as `None`, `consecutive_failures` at
`0`. -/
structure ClientState where
  last_successful_request : Option ℚ
  consecutive_failures : ℕ
deriving Repr, DecidableEq

/-- Initial client state (`__init__`). -/
def initClient : ClientState :=
  { last_successful_request := none, consecutive_failures := 0 }

/-- Outcome of one HTTP attempt, supplied by the environment oracle:
`none` for a timeout/connection error/other exception, `some code` for
a response with HTTP status `code`. -/
abbrev Attempt : Type := Option ℕ

/-- Result of one `_make_request` call: the returned response status
(`none` when all retries failed), the client state, the clock, the
number of attempts actually made, and the list of backoff delays slept
between attempts. -/
structure ReqResult where
  response : Option ℕ
  state : ClientState
  clock : ℚ
  attempts : ℕ
  delays : List ℚ
deriving Repr, DecidableEq

/-- The retry loop of `APIClient._make_request`.  `attempt` is the
0-indexed loop variable; the fuel argument counts the remaining loop
iterations (`API_MAX_RETRIES` at entry).  A response with status
`< 500` is terminal: it stamps `last_successful_request` with the
current time, zeroes `consecutive_failures` and is returned.  A status
`>= 500` or an exception retries, sleeping
`API_RETRY_DELAY * 2 ^ attempt` seconds — but only when another attempt
remains (`attempt < API_MAX_RETRIES - 1`).  Exhausting the loop
increments `consecutive_failures` and returns no response. -/
def makeRequestAux (cfg : Config) (env : ℕ → Attempt) :
    ℕ → ℕ → ClientState → ℚ → List ℚ → ReqResult
  | attempt, 0, st, clock, delays =>
      { response := none,
        state := { st with
          consecutive_failures := st.consecutive_failures + 1 },
        clock := clock, attempts := attempt, delays := delays }
  | attempt, remaining + 1, st, clock, delays =>
      match env attempt with
      | some code =>
          if code < 500 then
            { response := some code,
              state := { st with last_successful_request := some clock,
                                 consecutive_failures := 0 },
              clock := clock, attempts := attempt + 1, delays := delays }
          else if attempt < cfg.API_MAX_RETRIES - 1 then
            makeRequestAux cfg env (attempt + 1) remaining st
              (clock + cfg.API_RETRY_DELAY * 2 ^ attempt)
              (delays ++ [cfg.API_RETRY_DELAY * 2 ^ attempt])
          else
            makeRequestAux cfg env (attempt + 1) remaining st clock delays
      | none =>
          if attempt < cfg.API_MAX_RETRIES - 1 then
            makeRequestAux cfg env (attempt + 1) remaining st
              (clock + cfg.API_RETRY_DELAY * 2 ^ attempt)
              (delays ++ [cfg.API_RETRY_DELAY * 2 ^ attempt])
          else
            makeRequestAux cfg env (attempt + 1) remaining st clock delays

/-- `APIClient._make_request`: up to `API_MAX_RETRIES` attempts drawn
from the oracle `env`. -/
def makeRequest (cfg : Config) (env : ℕ → Attempt) (st : ClientState)
    (clock : ℚ) : ReqResult :=
  makeRequestAux cfg env 0 cfg.API_MAX_RETRIES st clock []

/-- An attempt outcome that the loop retries: an exception, or a status
of 500 and above. -/
def retryableB : Attempt → Bool
  | none => true
  | some code => 500 ≤ code

/-- `APIClient.is_connected`: true iff some request succeeded within
the last 300 seconds. -/
def is_connected (st : ClientState) (now : ℚ) : Bool :=
  match st.last_successful_request with
  | none => false
  | some t => now - t < 300

/-- The backoff schedule `API_RETRY_DELAY * 2 ^ j` for
`j = a, a+1, ..., a+k-1`. -/
def backoffs (cfg : Config) : ℕ → ℕ → List ℚ
  | _, 0 => []
  | a, k + 1 => cfg.API_RETRY_DELAY * 2 ^ a :: backoffs cfg (a + 1) k

/-- Running one failing operation after another (the claim's
"consecutive failures with no intervening success"): each step is one
`_make_request` call. -/
def runFailedOps (cfg : Config) (env : ℕ → Attempt) :
    ℕ → ClientState → ℚ → ClientState × ℚ
  | 0, st, clock => (st, clock)
  | n + 1, st, clock =>
      let r := makeRequest cfg env st clock
      runFailedOps cfg env n r.state r.clock

end Client

namespace Monitor

/-- The watering-threshold dictionary of `PlantMonitor.__init__`
(`main.py`), always fully populated. -/
structure Thresholds where
  soil_min : ℚ
  soil_max : ℚ
  temp_min : ℚ
  temp_max : ℚ
  humidity_min : ℚ
  humidity_max : ℚ
  light_min : ℚ
  light_max : ℚ
deriving Repr, DecidableEq

/-- The compiled default thresholds of `config.py`. -/
def defaultThresholds : Thresholds :=
  { soil_min := 30, soil_max := 70, temp_min := 15, temp_max := 30,
    humidity_min := 40, humidity_max := 80, light_min := 200,
    light_max := 2000 }

/-- A remote `thresholds` JSON object: each of the eight known fields
may be present (a number) or absent. -/
structure ThresholdPatch where
  soil_min : Option ℚ
  soil_max : Option ℚ
  temp_min : Option ℚ
  temp_max : Option ℚ
  humidity_min : Option ℚ
  humidity_max : Option ℚ
  light_min : Option ℚ
  light_max : Option ℚ
deriving Repr, DecidableEq

/-- The empty patch (all fields absent). -/
def emptyPatch : ThresholdPatch :=
  { soil_min := none, soil_max := none, temp_min := none,
    temp_max := none, humidity_min := none, humidity_max := none,
    light_min := none, light_max := none }

/-- Whether a remote `thresholds` object is truthy in Python (a
non-empty dictionary); modelled over its eight known fields. -/
def ThresholdPatch.nonempty (p : ThresholdPatch) : Bool :=
  p.soil_min.isSome || p.soil_max.isSome || p.temp_min.isSome ||
  p.temp_max.isSome || p.humidity_min.isSome ||
  p.humidity_max.isSome || p.light_min.isSome || p.light_max.isSome

/-- `self.thresholds.update(new_thresholds)`: a field present in the
remote object overwrites the stored value; an absent field keeps the
previous value. -/
def applyPatch (t : Thresholds) (p : ThresholdPatch) : Thresholds :=
  { soil_min := p.soil_min.getD t.soil_min,
    soil_max := p.soil_max.getD t.soil_max,
    temp_min := p.temp_min.getD t.temp_min,
    temp_max := p.temp_max.getD t.temp_max,
    humidity_min := p.humidity_min.getD t.humidity_min,
    humidity_max := p.humidity_max.getD t.humidity_max,
    light_min := p.light_min.getD t.light_min,
    light_max := p.light_max.getD t.light_max }

/-- A `plantType` object carried by a detection. -/
structure PlantType where
  name : Option String
  thresholds : Option ThresholdPatch
deriving Repr, DecidableEq

/-- One detection of the image-analysis payload: `confidence` defaults
to `0` when absent (`d.get('confidence', 0)`). -/
structure Detection where
  confidence : Option ℚ
  plantType : Option PlantType
deriving Repr, DecidableEq

/-- The sort key of the dominant-detection selection. -/
def detectionKey (d : Detection) : ℚ := d.confidence.getD 0

/-- Python's `max(xs, key=...)` over a non-empty list: scan left to
right, replacing the current best only on a strictly greater key, so
ties keep the earliest element. -/
def pyMaxBy (key : Detection → ℚ) : Detection → List Detection →
    Detection
  | best, [] => best
  | best, d :: ds => pyMaxBy key (if key best < key d then d else best) ds

/-- `max(detections, key=lambda d: d.get('confidence', 0))` for a
possibly-empty list. -/
def selectDominant : List Detection → Option Detection
  | [] => none
  | d :: ds => some (pyMaxBy detectionKey d ds)

/-- Modelled from the spec's words, for comparison with the source's
selection: the stable maximum — the first detection whose confidence
is not exceeded by any later one. -/
def specStableMax : List Detection → Option Detection
  | [] => none
  | d :: ds =>
      match specStableMax ds with
      | none => some d
      | some m =>
          if detectionKey d < detectionKey m then some m else some d

/-- Threshold-merge state of `PlantMonitor`: the current thresholds and
the recorded plant name. -/
structure MergeState where
  thresholds : Thresholds
  identified_plant : Option String
deriving Repr, DecidableEq

/-- `PlantMonitor.update_thresholds_from_api` (`main.py`): extract the
detections; if empty, no-op; select the dominant (maximum-confidence)
detection; if it carries a plant type with a truthy `thresholds`
object, update the stored thresholds field-by-field and record the
plant name (default `"Unknown"`); otherwise no-op. -/
def update_thresholds_from_api (ms : MergeState)
    (detections : List Detection) : MergeState :=
  match detections with
  | [] => ms
  | d :: ds =>
      let dominant := pyMaxBy detectionKey d ds
      match dominant.plantType with
      | none => ms
      | some pt =>
          match pt.thresholds with
          | none => ms
          | some p =>
              if p.nonempty then
                { thresholds := applyPatch ms.thresholds p,
                  identified_plant := some (pt.name.getD "Unknown") }
              else ms

end Monitor

namespace Orch

/-- A consolidated sensor reading (`SensorReader.read_all`,
`sensors.py`), timestamp aside: each field is absent when its sensor is
disabled or failed. -/
structure Reading where
  soil_pct : Option ℚ
  temperature_c : Option ℚ
  humidity_pct : Option ℚ
  lux : Option ℚ
deriving Repr, DecidableEq

/-- `SensorReader.is_reading_valid` (`sensors.py`): with safety checks
enabled, a reading is invalid when every non-timestamp field is absent,
or the temperature exceeds `SAFETY_MAX_TEMP`, or the humidity exceeds
`SAFETY_MAX_HUMIDITY`. -/
def is_reading_valid (cfg : Config) (r : Reading) : Bool :=
  if cfg.ENABLE_SAFETY_CHECKS = false then true
  else
    let has_data := r.soil_pct.isSome || r.temperature_c.isSome ||
      r.humidity_pct.isSome || r.lux.isSome
    if has_data = false then false
    else if (match r.temperature_c with
             | some t => decide (cfg.SAFETY_MAX_TEMP < t)
             | none => false) then false
    else if (match r.humidity_pct with
             | some h => decide (cfg.SAFETY_MAX_HUMIDITY < h)
             | none => false) then false
    else true

/-- A backend command (`main.py` `execute_command`): its id, its
`type` field, and the `duration` field of its payload (defaulted to 5
at the use site). -/
structure Command where
  id : Option String
  ctype : Option String
  payload_duration : Option ℚ
deriving Repr, DecidableEq

/-- Environment of one monitor run: streams of sensor readings, HTTP
attempt outcomes, camera captures (`none` for a failed or empty
capture), image-upload response payloads, command-poll payloads and
actuator write outcomes. -/
structure Env where
  readings : ℕ → Reading
  net : ℕ → Client.Attempt
  capture : ℕ → Option ℕ
  uploadData : ℕ → Option (List Monitor.Detection)
  pollData : ℕ → List Command
  pumpFaults : ℕ → Option String

/-- Full mutable state of `PlantMonitor` plus its collaborators and
the clock; the counters index how far each environment stream has been
consumed. -/
structure World where
  thresholds : Monitor.Thresholds
  identified_plant : Option String
  last_telemetry_time : ℚ
  last_image_time : ℚ
  last_command_poll_time : ℚ
  last_auto_water_check : ℚ
  lastReading : Option Reading
  pump : Pump.PumpState
  client : Client.ClientState
  clock : ℚ
  readCount : ℕ
  netCount : ℕ
  captureCount : ℕ
  uploadCount : ℕ
  pollCount : ℕ
  pumpCount : ℕ
deriving Repr, DecidableEq

/-- The world right after `PlantMonitor.__init__` at clock 0. -/
def initWorld : World :=
  { thresholds := Monitor.defaultThresholds, identified_plant := none,
    last_telemetry_time := 0, last_image_time := 0,
    last_command_poll_time := 0, last_auto_water_check := 0,
    lastReading := none, pump := Pump.initState,
    client := Client.initClient, clock := 0, readCount := 0,
    netCount := 0, captureCount := 0, uploadCount := 0, pollCount := 0,
    pumpCount := 0 }

/-- `SensorReader.read_all`: consume the next reading and remember it
as the last reading. -/
def read_all (env : Env) (w : World) : Reading × World :=
  let r := env.readings w.readCount
  (r, { w with readCount := w.readCount + 1, lastReading := some r })

/-- One `_make_request` call drawn from the world's network stream. -/
def wRequest (cfg : Config) (env : Env) (w : World) :
    Option ℕ × World :=
  let res := Client.makeRequest cfg (fun j => env.net (w.netCount + j))
    w.client w.clock
  (res.response,
   { w with client := res.state, clock := res.clock,
            netCount := w.netCount + res.attempts })

/-- `APIClient.send_telemetry`: true iff the request came back with
status 201. -/
def send_telemetry (cfg : Config) (env : Env) (w : World) :
    Bool × World :=
  let q := wRequest cfg env w
  ((match q.1 with
    | some code => code == 201
    | none => false), q.2)

/-- `APIClient.upload_image`: on a 201 response, the response's `data`
payload (its detection list); otherwise nothing. -/
def upload_image (cfg : Config) (env : Env) (w : World) :
    Option (List Monitor.Detection) × World :=
  let q := wRequest cfg env w
  let w1 := { q.2 with uploadCount := q.2.uploadCount + 1 }
  match q.1 with
  | some code =>
      if code == 201 then (env.uploadData w.uploadCount, w1)
      else (none, w1)
  | none => (none, w1)

/-- `APIClient.poll_commands`: on a 200 response, the polled command
list; otherwise the empty list. -/
def poll_commands (cfg : Config) (env : Env) (w : World) :
    List Command × World :=
  let q := wRequest cfg env w
  let w1 := { q.2 with pollCount := q.2.pollCount + 1 }
  match q.1 with
  | some code =>
      if code == 200 then (env.pollData w.pollCount, w1)
      else ([], w1)
  | none => ([], w1)

/-- `APIClient.acknowledge_command`: true iff the request came back
with status 200. -/
def acknowledge_command (cfg : Config) (env : Env) (w : World) :
    Bool × World :=
  let q := wRequest cfg env w
  ((match q.1 with
    | some code => code == 200
    | none => false), q.2)

/-- `PumpController.activate` invoked from the monitor: the actuator
environment is drawn from the world's fault stream (at most three
writes per call). -/
def wActivate (cfg : Config) (env : Env) (w : World) (duration : ℚ)
    (reason : String) : Pump.ActOutcome × World :=
  let l := [env.pumpFaults w.pumpCount, env.pumpFaults (w.pumpCount + 1),
            env.pumpFaults (w.pumpCount + 2)]
  let s := Pump.activate cfg w.pump w.clock l duration reason
  (s.outcome,
   { w with pump := s.state, clock := s.clock,
            pumpCount := w.pumpCount + (3 - s.env.length) })

/-- `time.sleep`. -/
def sleep (d : ℚ) (w : World) : World := { w with clock := w.clock + d }

/-- `PlantMonitor.check_and_water_if_needed`: when auto-watering is
enabled and the soil reading is below `soil_min`, activate the pump;
on success sleep 2 s, take a fresh reading and push one more telemetry
update.  A pump exception propagates. -/
def check_and_water_if_needed (cfg : Config) (env : Env) (w : World)
    (sensor_data : Reading) : Except String (Bool × World) :=
  if cfg.ENABLE_AUTO_WATERING = false then .ok (false, w)
  else
    match sensor_data.soil_pct with
    | none => .ok (false, w)
    | some soil =>
        if soil < w.thresholds.soil_min then
          let a := wActivate cfg env w cfg.AUTO_WATER_DURATION "auto"
          match a.1 with
          | .raised m => .error m
          | .ret r =>
              if r.success then
                let w2 := sleep 2 a.2
                let q := read_all env w2
                let s := send_telemetry cfg env q.2
                .ok (true, s.2)
              else .ok (false, a.2)
        else .ok (false, w)

/-- `PlantMonitor.process_telemetry` (`main.py`): skip inside the
interval; read the sensors; on an invalid reading return early (the
timestamp is NOT updated on this path); otherwise send telemetry,
stamp `last_telemetry_time` with the time captured at entry, and on
the slower cadence run the auto-watering check, then stamp
`last_auto_water_check` with the same entry time. -/
def process_telemetry (cfg : Config) (env : Env) (w : World) :
    Except String World :=
  let current_time := w.clock
  if current_time - w.last_telemetry_time < cfg.TELEMETRY_INTERVAL then
    .ok w
  else
    let q := read_all env w
    if is_reading_valid cfg q.1 = false then .ok q.2
    else
      let s := send_telemetry cfg env q.2
      let w3 := { s.2 with last_telemetry_time := current_time }
      if cfg.AUTO_WATER_CHECK_INTERVAL ≤
          current_time - w3.last_auto_water_check then
        match check_and_water_if_needed cfg env w3 q.1 with
        | .error m => .error m
        | .ok p => .ok { p.2 with last_auto_water_check := current_time }
      else .ok w3

/-- `PlantMonitor.process_image_capture` (`main.py`): skip inside the
interval; on a failed capture return early (the timestamp is NOT
updated); otherwise upload, merge thresholds from a successful
response, and stamp `last_image_time` with the time captured at
entry. -/
def process_image_capture (cfg : Config) (env : Env) (w : World) :
    World :=
  let current_time := w.clock
  if current_time - w.last_image_time < cfg.IMAGE_CAPTURE_INTERVAL then
    w
  else
    let cap := env.capture w.captureCount
    let w1 := { w with captureCount := w.captureCount + 1 }
    match cap with
    | none => w1
    | some _ =>
        let u := upload_image cfg env w1
        match u.1 with
        | some dets =>
            let ms := Monitor.update_thresholds_from_api
              { thresholds := u.2.thresholds,
                identified_plant := u.2.identified_plant } dets
            { u.2 with thresholds := ms.thresholds,
                       identified_plant := ms.identified_plant,
                       last_image_time := current_time }
        | none => { u.2 with last_image_time := current_time }

/-- `PlantMonitor.execute_command` (`main.py`): a `water` command is
acknowledged `started`, runs the pump, is acknowledged `completed`
(followed by a settle sleep, a fresh reading and one telemetry push)
or `failed`; any other type is acknowledged `failed`.  A pump
exception propagates. -/
def execute_command (cfg : Config) (env : Env) (w : World)
    (cmd : Command) : Except String World :=
  if cmd.ctype = some "water" then
    let duration := cmd.payload_duration.getD 5
    let a1 := acknowledge_command cfg env w
    let a := wActivate cfg env a1.2 duration "command"
    match a.1 with
    | .raised m => .error m
    | .ret r =>
        if r.success then
          let a2 := acknowledge_command cfg env a.2
          let w4 := sleep 2 a2.2
          let q := read_all env w4
          let s := send_telemetry cfg env q.2
          .ok s.2
        else
          let a2 := acknowledge_command cfg env a.2
          .ok a2.2
  else
    let a1 := acknowledge_command cfg env w
    .ok a1.2

/-- The `for command in commands` loop of `process_commands`. -/
def execute_commands (cfg : Config) (env : Env) :
    World → List Command → Except String World
  | w, [] => .ok w
  | w, c :: cs =>
      match execute_command cfg env w c with
      | .error m => .error m
      | .ok w1 => execute_commands cfg env w1 cs

/-- `PlantMonitor.process_commands` (`main.py`): skip inside the
interval; poll; execute every polled command; stamp
`last_command_poll_time` with the time captured at entry (on both the
empty and the non-empty path). -/
def process_commands (cfg : Config) (env : Env) (w : World) :
    Except String World :=
  let current_time := w.clock
  if current_time - w.last_command_poll_time <
      cfg.COMMAND_POLL_INTERVAL then
    .ok w
  else
    let p := poll_commands cfg env w
    if p.1.isEmpty then
      .ok { p.2 with last_command_poll_time := current_time }
    else
      match execute_commands cfg env p.2 p.1 with
      | .error m => .error m
      | .ok w2 => .ok { w2 with last_command_poll_time := current_time }

/-- An environment whose sensor stream reports 55 °C (over the 50 °C
safety ceiling), with an otherwise healthy network, camera and
actuator. -/
def hotEnv : Env :=
  { readings := fun _ =>
      { soil_pct := some 40, temperature_c := some 55,
        humidity_pct := some 60, lux := some 800 },
    net := fun _ => some 201, capture := fun _ => none,
    uploadData := fun _ => none, pollData := fun _ => [],
    pumpFaults := fun _ => none }

/-- An environment with valid readings whose first network attempt
fails with a 503, so one 5-second backoff is slept inside the
telemetry body before the 201 succeeds. -/
def slowNetEnv : Env :=
  { readings := fun _ =>
      { soil_pct := some 40, temperature_c := some 22,
        humidity_pct := some 60, lux := some 800 },
    net := fun j => if j = 0 then some 503 else some 201,
    capture := fun _ => none, uploadData := fun _ => none,
    pollData := fun _ => [], pumpFaults := fun _ => none }

end Orch

/-! ## Theorems -/

/-- For a nonnegative argument, Python `int()` truncation agrees with
rounding down. -/
theorem pyInt_eq_floor {x : ℚ} (hx : 0 ≤ x) : pyInt x = ⌊x⌋ := by
  simp [pyInt, hx]

namespace Pump

/-- When the pump is idle and the cooldown has elapsed, `can_activate`
reports `(true, none)`. -/
theorem can_activate_ok (cfg : Config) (st : PumpState) (now : ℚ)
    (hrun : st.is_running = false)
    (hcool : cfg.PUMP_MIN_INTERVAL ≤ now - st.last_activation_time) :
    can_activate cfg st now = (true, none) := by
  unfold can_activate
  rw [hrun]
  simp [not_lt.mpr hcool]

end Pump

/-- C1: an `activate(d, reason)` call made while the pump is idle and at
least `PUMP_MIN_INTERVAL` after `last_activation_time`, with a healthy
actuator, runs the pump for exactly `min d PUMP_MAX_DURATION` seconds
(in particular exactly `PUMP_MAX_DURATION` whenever `d` exceeds it);
on completion `last_activation_time` is the time at the end of the run,
`total_activations` grew by one, `is_running` is false, and the returned
dictionary has `success = true`, the executed duration and a
timestamp. -/
theorem C1_activate_success (cfg : Config) (st : Pump.PumpState)
    (clock : ℚ) (env : Pump.ActEnv) (d : ℚ) (reason : String)
    (hrun : st.is_running = false)
    (hcool : cfg.PUMP_MIN_INTERVAL ≤ clock - st.last_activation_time)
    (henv1 : (Pump.envNext env).1 = none)
    (henv2 : (Pump.envNext (Pump.envNext env).2).1 = none) :
    Pump.activate cfg st clock env d reason =
      { outcome := .ret
          { success := true, reason := reason,
            duration := min d cfg.PUMP_MAX_DURATION,
            timestamp := some (clock + min d cfg.PUMP_MAX_DURATION) },
        state :=
          { last_activation_time := clock + min d cfg.PUMP_MAX_DURATION,
            total_activations := st.total_activations + 1,
            is_running := false, relay_on := false },
        clock := clock + min d cfg.PUMP_MAX_DURATION,
        env := (Pump.envNext (Pump.envNext env).2).2 } ∧
    (cfg.PUMP_MAX_DURATION < d →
      min d cfg.PUMP_MAX_DURATION = cfg.PUMP_MAX_DURATION) := by
  refine ⟨?_, fun h => min_eq_right h.le⟩
  rcases h1 : Pump.envNext env with ⟨e1, env1⟩
  rcases h2 : Pump.envNext env1 with ⟨e2, env2⟩
  rw [h1] at henv1 henv2
  rw [h2] at henv2
  simp only at henv1 henv2
  subst henv1
  subst henv2
  unfold Pump.activate
  rw [Pump.can_activate_ok cfg st clock hrun hcool]
  simp only [h1, h2, if_true]
  simp [Pump.ActStep.mk.injEq, Pump.ActOutcome.ret.injEq,
    Pump.ActResult.mk.injEq, Pump.PumpState.mk.injEq, add_sub_cancel_left]

/-- Witness for C1 at the shipped configuration: a 15-second request at
time 300 from the initial state executes for the 10-second cap. -/
theorem C1_witness :
    Pump.activate defaultConfig Pump.initState 300 [] 15 "manual" =
      { outcome := .ret
          { success := true, reason := "manual", duration := 10,
            timestamp := some 310 },
        state :=
          { last_activation_time := 310, total_activations := 1,
            is_running := false, relay_on := false },
        clock := 310, env := [] } := by
  have h := (C1_activate_success defaultConfig Pump.initState 300 [] 15
    "manual" rfl (by norm_num [defaultConfig, Pump.initState]) rfl rfl).1
  rw [h]
  norm_num [defaultConfig, Pump.initState, Pump.envNext]

namespace Pump

/-- `can_activate` while the pump is running. -/
theorem can_activate_running (cfg : Config) (st : PumpState) (now : ℚ)
    (h : st.is_running = true) :
    can_activate cfg st now = (false, some "Pump already running") := by
  unfold can_activate
  rw [h]
  simp

/-- `can_activate` during the cooldown window: the reported remaining
seconds are `PUMP_MIN_INTERVAL - elapsed`, rounded down. -/
theorem can_activate_cooldown (cfg : Config) (st : PumpState) (now : ℚ)
    (h : st.is_running = false)
    (hcl : now - st.last_activation_time < cfg.PUMP_MIN_INTERVAL) :
    can_activate cfg st now =
      (false, some ("Must wait " ++
        toString ⌊cfg.PUMP_MIN_INTERVAL - (now - st.last_activation_time)⌋ ++
        "s before next activation")) := by
  unfold can_activate
  rw [h]
  simp only [Bool.false_eq_true, if_false, if_pos hcl]
  rw [pyInt_eq_floor (by linarith)]

/-- A rejected `activate` call returns the `can_activate` reason with a
zero duration and leaves the controller state, clock and actuator
untouched. -/
theorem activate_rejected (cfg : Config) (st : PumpState) (clock : ℚ)
    (env : ActEnv) (d : ℚ) (reason : String)
    (h : (can_activate cfg st clock).1 = false) :
    activate cfg st clock env d reason =
      { outcome := .ret
          { success := false,
            reason := (can_activate cfg st clock).2.getD "",
            duration := 0, timestamp := none },
        state := st, clock := clock, env := env } := by
  unfold activate
  simp [h]

end Pump

/-- C2: an `activate` call made while the pump is running is rejected
with the already-running reason (so a second activation is never
accepted in flight); one made during the cooldown window is rejected
with a reason whose remaining-seconds figure is
`PUMP_MIN_INTERVAL - elapsed` rounded down to a whole second; and
`can_activate` reports exactly the same two checks, as a pure function
of the state (no side effects in this embedding). -/
theorem C2_activate_rejections (cfg : Config) (st : Pump.PumpState)
    (clock : ℚ) (env : Pump.ActEnv) (d : ℚ) (reason : String) :
    (st.is_running = true →
      Pump.activate cfg st clock env d reason =
        { outcome := .ret
            { success := false,
              reason := "Pump already running",
              duration := 0, timestamp := none },
          state := st, clock := clock, env := env } ∧
      Pump.can_activate cfg st clock =
        (false, some "Pump already running")) ∧
    (st.is_running = false →
     clock - st.last_activation_time < cfg.PUMP_MIN_INTERVAL →
      Pump.activate cfg st clock env d reason =
        { outcome := .ret
            { success := false,
              reason := "Must wait " ++
                toString
                  ⌊cfg.PUMP_MIN_INTERVAL -
                    (clock - st.last_activation_time)⌋ ++
                "s before next activation",
              duration := 0, timestamp := none },
          state := st, clock := clock, env := env } ∧
      Pump.can_activate cfg st clock =
        (false, some ("Must wait " ++
          toString
            ⌊cfg.PUMP_MIN_INTERVAL - (clock - st.last_activation_time)⌋ ++
          "s before next activation"))) := by
  constructor
  · intro h
    have hca := Pump.can_activate_running cfg st clock h
    refine ⟨?_, hca⟩
    rw [Pump.activate_rejected cfg st clock env d reason (by rw [hca])]
    rw [hca]
    rfl
  · intro h hcl
    have hca := Pump.can_activate_cooldown cfg st clock h hcl
    refine ⟨?_, hca⟩
    rw [Pump.activate_rejected cfg st clock env d reason (by rw [hca])]
    rw [hca]
    rfl

/-- Witness for C2: at the shipped configuration, a call while running
is rejected as already running, and a call 150.5 seconds after an
activation is told to wait 149 whole seconds. -/
theorem C2_witness :
    Pump.activate defaultConfig
        { Pump.initState with is_running := true } 0 [] 5 "manual" =
      { outcome := .ret
          { success := false, reason := "Pump already running",
            duration := 0, timestamp := none },
        state := { Pump.initState with is_running := true },
        clock := 0, env := [] } ∧
    Pump.activate defaultConfig
        { Pump.initState with last_activation_time := 100 }
        (100 + 301/2) [] 5 "manual" =
      { outcome := .ret
          { success := false,
            reason := "Must wait 149s before next activation",
            duration := 0, timestamp := none },
        state := { Pump.initState with last_activation_time := 100 },
        clock := 100 + 301/2, env := [] } := by
  constructor
  · have h := (C2_activate_rejections defaultConfig
      { Pump.initState with is_running := true } 0 [] 5 "manual").1 rfl
    rw [h.1]
  · have h := (C2_activate_rejections defaultConfig
      { Pump.initState with last_activation_time := 100 }
      (100 + 301/2) [] 5 "manual").2 rfl
      (by norm_num [defaultConfig, Pump.initState])
    rw [h.1]
    norm_num [defaultConfig, Pump.initState]
    rfl

/-- C3 counterexample: from the idle initial state at time 300, a run
whose off-write fails and whose recovery off-write in the `except`
branch fails again makes `activate` propagate the exception to the
caller and terminate with `is_running` still true (and the relay still
energized), contradicting the claim that `activate` never propagates an
exception and never exits with `is_running` true. -/
theorem C3_counterexample :
    (Pump.activate defaultConfig Pump.initState 300
      [none, some "relay stuck", some "relay stuck"] 5 "manual").outcome =
      Pump.ActOutcome.raised "relay stuck" ∧
    (Pump.activate defaultConfig Pump.initState 300
      [none, some "relay stuck", some "relay stuck"] 5 "manual").state =
      { last_activation_time := 0, total_activations := 0,
        is_running := true, relay_on := true } := by
  norm_num [Pump.activate, Pump.can_activate, Pump.envNext,
    Pump.activateHandler, Pump.initState, defaultConfig, pyInt]

/-- C3 as amended: for a fault raised by the actuator during the
running phase of `activate` (at the on-write or at the off-write), if
the recovery off-write in the `except` branch succeeds then `activate`
forces the actuator off, clears `is_running` and returns
`success = false` with reason `"Error: <detail>"`; but if the recovery
off-write itself faults, the exception propagates to the caller and
`is_running` is left true. -/
theorem C3_fault_handling (cfg : Config) (st : Pump.PumpState)
    (clock : ℚ) (d : ℚ) (reason msg msg2 : String)
    (rest : Pump.ActEnv)
    (hca : (Pump.can_activate cfg st clock).1 = true) :
    Pump.activate cfg st clock (some msg :: none :: rest) d reason =
      { outcome := .ret
          { success := false, reason := "Error: " ++ msg,
            duration := 0, timestamp := none },
        state := { st with is_running := false, relay_on := false },
        clock := clock, env := rest } ∧
    Pump.activate cfg st clock (none :: some msg :: none :: rest) d
        reason =
      { outcome := .ret
          { success := false, reason := "Error: " ++ msg,
            duration := 0, timestamp := none },
        state := { st with is_running := false, relay_on := false },
        clock := clock + min d cfg.PUMP_MAX_DURATION, env := rest } ∧
    Pump.activate cfg st clock (some msg :: some msg2 :: rest) d
        reason =
      { outcome := .raised msg2,
        state := { st with is_running := true },
        clock := clock, env := rest } ∧
    Pump.activate cfg st clock (none :: some msg :: some msg2 :: rest)
        d reason =
      { outcome := .raised msg2,
        state := { st with is_running := true, relay_on := true },
        clock := clock + min d cfg.PUMP_MAX_DURATION, env := rest } := by
  refine ⟨?_, ?_, ?_, ?_⟩ <;>
    (unfold Pump.activate Pump.activateHandler; simp [hca, Pump.envNext])

/-- Witness for C3's amended statement: a concrete on-write fault with
a successful recovery off-write yields the error dictionary with
`is_running` cleared. -/
theorem C3_witness :
    Pump.activate defaultConfig Pump.initState 300
        [some "io fail", none] 5 "auto" =
      { outcome := .ret
          { success := false, reason := "Error: io fail",
            duration := 0, timestamp := none },
        state :=
          { Pump.initState with is_running := false, relay_on := false },
        clock := 300, env := [] } := by
  have h := (C3_fault_handling defaultConfig Pump.initState 300 5
    "auto" "io fail" "unused" []
    (by rw [Pump.can_activate_ok defaultConfig Pump.initState 300 rfl
      (by norm_num [defaultConfig, Pump.initState])])).1
  rw [h]
  rfl

/-- C4: `emergency_stop` run from any controller state never lets an
exception escape (the off-write is guarded by a `try`/`except` that
swallows errors), always terminates with `is_running = false`, and
whenever the off-write succeeds the relay is driven off. -/
theorem C4_emergency_stop (st : Pump.PumpState) (env : Pump.ActEnv) :
    (Pump.emergency_stop st env).raised = none ∧
    (Pump.emergency_stop st env).state.is_running = false ∧
    ((Pump.envNext env).1 = none →
      (Pump.emergency_stop st env).state.relay_on = false) := by
  unfold Pump.emergency_stop
  rcases h : Pump.envNext env with ⟨e, env1⟩
  cases e <;> simp

/-- Witness for C4: stopping a running pump with a healthy actuator
clears `is_running` and turns the relay off without an exception. -/
theorem C4_witness :
    (Pump.emergency_stop
      { Pump.initState with is_running := true, relay_on := true }
      []).raised = none ∧
    (Pump.emergency_stop
      { Pump.initState with is_running := true, relay_on := true }
      []).state.is_running = false ∧
    (Pump.emergency_stop
      { Pump.initState with is_running := true, relay_on := true }
      []).state.relay_on = false := by
  have h := C4_emergency_stop
    { Pump.initState with is_running := true, relay_on := true } []
  exact ⟨h.1, h.2.1, h.2.2 rfl⟩

/-- C10: every `activate` call that does not complete successfully —
whether rejected (already running or cooldown), aborted by an actuator
fault, or escaping with an exception — leaves `last_activation_time`
and `total_activations` exactly as they were, and every failure
dictionary it returns reports a duration of `0`. -/
theorem C10_failure_frame (cfg : Config) (st : Pump.PumpState)
    (clock : ℚ) (env : Pump.ActEnv) (d : ℚ) (reason : String) :
    (∀ r : Pump.ActResult,
      (Pump.activate cfg st clock env d reason).outcome = .ret r →
      r.success = false →
      (Pump.activate cfg st clock env d reason).state.last_activation_time
          = st.last_activation_time ∧
      (Pump.activate cfg st clock env d reason).state.total_activations
          = st.total_activations ∧
      r.duration = 0) ∧
    (∀ msg : String,
      (Pump.activate cfg st clock env d reason).outcome = .raised msg →
      (Pump.activate cfg st clock env d reason).state.last_activation_time
          = st.last_activation_time ∧
      (Pump.activate cfg st clock env d reason).state.total_activations
          = st.total_activations) := by
  rcases h1 : Pump.envNext env with ⟨e1, env1⟩
  rcases h2 : Pump.envNext env1 with ⟨e2, env2⟩
  rcases h3 : Pump.envNext env2 with ⟨e3, env3⟩
  unfold Pump.activate Pump.activateHandler
  by_cases hca : (Pump.can_activate cfg st clock).1 = true
  · simp only [hca, if_true, h1, h2, h3]
    cases e1 <;> cases e2 <;> cases e3 <;> simp_all
  · simp_all

/-- Witness for C10: a call rejected while the pump is running changes
neither `last_activation_time` nor `total_activations` and reports a
zero duration. -/
theorem C10_witness :
    Pump.PumpState.last_activation_time
      (Pump.activate defaultConfig
        { Pump.initState with is_running := true } 0 [] 5 "manual").state
      = 0 ∧
    Pump.PumpState.total_activations
      (Pump.activate defaultConfig
        { Pump.initState with is_running := true } 0 [] 5 "manual").state
      = 0 ∧
    Pump.ActResult.duration
      { success := false, reason := "Pump already running",
        duration := 0, timestamp := none } = 0 := by
  have hca := Pump.can_activate_running defaultConfig
    { Pump.initState with is_running := true } 0 rfl
  have h := (C10_failure_frame defaultConfig
    { Pump.initState with is_running := true } 0 [] 5 "manual").1
    { success := false, reason := "Pump already running",
      duration := 0, timestamp := none }
    (by
      rw [Pump.activate_rejected defaultConfig
        { Pump.initState with is_running := true } 0 [] 5 "manual"
        (by rw [hca])]
      rw [hca]
      rfl) rfl
  exact ⟨h.1, h.2.1, h.2.2⟩

namespace Client

/-- One unfolding of the retry loop body (the `for` iteration of
`_make_request` at index `attempt` with at least one iteration left). -/
theorem makeRequestAux_step (cfg : Config) (env : ℕ → Attempt)
    (attempt remaining : ℕ) (st : ClientState) (clock : ℚ)
    (delays : List ℚ) :
    makeRequestAux cfg env attempt (remaining + 1) st clock delays =
      match env attempt with
      | some code =>
          if code < 500 then
            { response := some code,
              state := { st with last_successful_request := some clock,
                                 consecutive_failures := 0 },
              clock := clock, attempts := attempt + 1, delays := delays }
          else if attempt < cfg.API_MAX_RETRIES - 1 then
            makeRequestAux cfg env (attempt + 1) remaining st
              (clock + cfg.API_RETRY_DELAY * 2 ^ attempt)
              (delays ++ [cfg.API_RETRY_DELAY * 2 ^ attempt])
          else
            makeRequestAux cfg env (attempt + 1) remaining st clock
              delays
      | none =>
          if attempt < cfg.API_MAX_RETRIES - 1 then
            makeRequestAux cfg env (attempt + 1) remaining st
              (clock + cfg.API_RETRY_DELAY * 2 ^ attempt)
              (delays ++ [cfg.API_RETRY_DELAY * 2 ^ attempt])
          else
            makeRequestAux cfg env (attempt + 1) remaining st clock
              delays := rfl

/-- The backoff schedule written as the claim states it:
`API_RETRY_DELAY * 2 ^ j` for the failed attempts `j = a .. a+k-1`. -/
theorem backoffs_eq_range (cfg : Config) (k : ℕ) :
    ∀ a : ℕ, backoffs cfg a k =
      (List.range k).map (fun j => cfg.API_RETRY_DELAY * 2 ^ (a + j)) := by
  induction k with
  | zero => intro a; simp [backoffs]
  | succ k ih =>
      intro a
      rw [List.range_succ_eq_map]
      simp only [backoffs, List.map_cons, List.map_map, Nat.add_zero, ih]
      congr 1
      apply List.map_congr_left
      intro j _
      simp only [Function.comp_apply]
      congr 2
      omega

/-- Loop invariant for a terminating `_make_request` run: if the first
`k` attempts are retryable and attempt `k` gets a status below 500,
the loop returns that status after exactly `k + 1` attempts, sleeping
the exponential backoff between attempts and never after the last, and
stamps the success health fields. -/
theorem makeRequestAux_success (cfg : Config) (env : ℕ → Attempt)
    (k : ℕ) :
    ∀ (a : ℕ) (st : ClientState) (clock : ℚ) (delays : List ℚ)
      (c : ℕ),
      a + k + 1 ≤ cfg.API_MAX_RETRIES →
      (∀ j, j < k → retryableB (env (a + j)) = true) →
      env (a + k) = some c → c < 500 →
      makeRequestAux cfg env a (cfg.API_MAX_RETRIES - a) st clock delays
        =
        { response := some c,
          state := { st with
            last_successful_request :=
              some (clock + (backoffs cfg a k).sum),
            consecutive_failures := 0 },
          clock := clock + (backoffs cfg a k).sum,
          attempts := a + k + 1,
          delays := delays ++ backoffs cfg a k } := by
  induction k with
  | zero =>
      intro a st clock delays c hle _ hterm hc
      rw [show cfg.API_MAX_RETRIES - a =
        (cfg.API_MAX_RETRIES - (a + 1)) + 1 from by omega]
      rw [show a + 0 = a from rfl] at hterm
      rw [makeRequestAux_step]
      simp [hterm, hc, backoffs]
  | succ k ih =>
      intro a st clock delays c hle hretry hterm hc
      rw [show cfg.API_MAX_RETRIES - a =
        (cfg.API_MAX_RETRIES - (a + 1)) + 1 from by omega]
      have hlt : a < cfg.API_MAX_RETRIES - 1 := by omega
      have haux := ih (a + 1) st
        (clock + cfg.API_RETRY_DELAY * 2 ^ a)
        (delays ++ [cfg.API_RETRY_DELAY * 2 ^ a]) c
        (by omega)
        (fun j hj => by
          have := hretry (j + 1) (by omega)
          rwa [show a + (j + 1) = a + 1 + j from by omega] at this)
        (by rwa [show a + 1 + k = a + (k + 1) from by omega])
        hc
      have hr0 := hretry 0 (by omega)
      rw [show a + 0 = a from rfl] at hr0
      rw [makeRequestAux_step]
      rcases he : env a with _ | code
      · simp only [he, if_pos hlt]
        rw [haux]
        simp [backoffs, List.append_assoc]
        constructor
        · ring
        · omega
      · rw [he] at hr0
        have hcode : ¬ code < 500 := by
          simp [retryableB] at hr0; omega
        simp only [he, if_neg hcode, if_pos hlt]
        rw [haux]
        simp [backoffs, List.append_assoc]
        constructor
        · ring
        · omega

/-- Loop invariant for an exhausted `_make_request` run: if every
attempt from `a` on is retryable, the loop makes all remaining
attempts, sleeps the backoff between attempts (never after the last),
returns no response and increments `consecutive_failures` once. -/
theorem makeRequestAux_exhaust (cfg : Config) (env : ℕ → Attempt)
    (r : ℕ) :
    ∀ (a : ℕ) (st : ClientState) (clock : ℚ) (delays : List ℚ),
      a + r = cfg.API_MAX_RETRIES →
      (∀ j, a ≤ j → j < cfg.API_MAX_RETRIES → retryableB (env j) = true)
      →
      makeRequestAux cfg env a r st clock delays =
        { response := none,
          state := { st with
            consecutive_failures := st.consecutive_failures + 1 },
          clock := clock + (backoffs cfg a (r - 1)).sum,
          attempts := cfg.API_MAX_RETRIES,
          delays := delays ++ backoffs cfg a (r - 1) } := by
  induction r with
  | zero =>
      intro a st clock delays ha _
      simp [makeRequestAux, backoffs]
      omega
  | succ r ih =>
      intro a st clock delays ha hretry
      have hr0 := hretry a (le_refl a) (by omega)
      rw [makeRequestAux_step]
      rcases r with _ | r'
      · have hnlt : ¬ a < cfg.API_MAX_RETRIES - 1 := by omega
        rcases he : env a with _ | code
        · simp only [he, if_neg hnlt]
          simp [makeRequestAux, backoffs]
          omega
        · rw [he] at hr0
          have hcode : ¬ code < 500 := by
            simp [retryableB] at hr0; omega
          simp only [he, if_neg hcode, if_neg hnlt]
          simp [makeRequestAux, backoffs]
          omega
      · have hlt : a < cfg.API_MAX_RETRIES - 1 := by omega
        have haux := ih (a + 1) st
          (clock + cfg.API_RETRY_DELAY * 2 ^ a)
          (delays ++ [cfg.API_RETRY_DELAY * 2 ^ a])
          (by omega)
          (fun j hj hj2 => hretry j (by omega) hj2)
        rcases he : env a with _ | code
        · simp only [he, if_pos hlt]
          rw [haux]
          simp [backoffs, List.append_assoc]
          ring
        · rw [he] at hr0
          have hcode : ¬ code < 500 := by
            simp [retryableB] at hr0; omega
          simp only [he, if_neg hcode, if_pos hlt]
          rw [haux]
          simp [backoffs, List.append_assoc]
          ring

/-- Any `_make_request` run that returns a response has stamped
`last_successful_request` with the clock at the moment of the
successful attempt and zeroed `consecutive_failures`. -/
theorem makeRequestAux_some_resets (cfg : Config) (env : ℕ → Attempt)
    (r : ℕ) :
    ∀ (a : ℕ) (st : ClientState) (clock : ℚ) (delays : List ℚ)
      (c : ℕ),
      (makeRequestAux cfg env a r st clock delays).response = some c →
      ClientState.consecutive_failures
          (makeRequestAux cfg env a r st clock delays).state = 0 ∧
      ClientState.last_successful_request
          (makeRequestAux cfg env a r st clock delays).state =
        some (makeRequestAux cfg env a r st clock delays).clock := by
  induction r with
  | zero =>
      intro a st clock delays c h
      simp [makeRequestAux] at h
  | succ r ih =>
      intro a st clock delays c h
      rw [makeRequestAux_step] at h ⊢
      rcases he : env a with _ | code
      · simp only [he] at h ⊢
        by_cases hlt : a < cfg.API_MAX_RETRIES - 1
        · rw [if_pos hlt] at h ⊢
          exact ih _ _ _ _ c h
        · rw [if_neg hlt] at h ⊢
          exact ih _ _ _ _ c h
      · simp only [he] at h ⊢
        by_cases hcode : code < 500
        · rw [if_pos hcode] at h ⊢
          simp
        · rw [if_neg hcode] at h ⊢
          by_cases hlt : a < cfg.API_MAX_RETRIES - 1
          · rw [if_pos hlt] at h ⊢
            exact ih _ _ _ _ c h
          · rw [if_neg hlt] at h ⊢
            exact ih _ _ _ _ c h

end Client

/-- C5: for every request, the first attempt answered with a status
below 500 (4xx included) terminates the retry loop immediately and is
returned; every earlier attempt was retryable (status 500 and above, a
timeout or a connection error); at most `API_MAX_RETRIES` attempts
happen in total; and the delays slept are exactly
`API_RETRY_DELAY * 2 ^ j` after failed attempt `j` — between attempts
only, never after the last. -/
theorem C5_retry_protocol (cfg : Config) (env : ℕ → Client.Attempt)
    (st : Client.ClientState) (clock : ℚ) (k c : ℕ)
    (hk : k + 1 ≤ cfg.API_MAX_RETRIES)
    (hretry : ∀ j, j < k → Client.retryableB (env j) = true)
    (hterm : env k = some c) (hc : c < 500) :
    Client.makeRequest cfg env st clock =
      { response := some c,
        state := { st with
          last_successful_request :=
            some (clock + (Client.backoffs cfg 0 k).sum),
          consecutive_failures := 0 },
        clock := clock + (Client.backoffs cfg 0 k).sum,
        attempts := k + 1,
        delays := Client.backoffs cfg 0 k } ∧
    Client.backoffs cfg 0 k =
      (List.range k).map (fun j => cfg.API_RETRY_DELAY * 2 ^ j) := by
  constructor
  · have h := Client.makeRequestAux_success cfg env k 0 st clock [] c
      (by omega)
      (fun j hj => by simpa using hretry j hj)
      (by simpa using hterm) hc
    rw [Nat.sub_zero] at h
    unfold Client.makeRequest
    rw [h]
    simp
  · have h := Client.backoffs_eq_range cfg k 0
    simpa using h

/-- Witness for C5 at the shipped configuration: two 503 responses
followed by a 201 make exactly 3 attempts with backoffs of 5 s and
10 s, and the final result is the success. -/
theorem C5_witness :
    Client.makeRequest defaultConfig
      (fun j => if j < 2 then some 503 else some 201)
      Client.initClient 0 =
      { response := some 201,
        state := { last_successful_request := some 15,
                   consecutive_failures := 0 },
        clock := 15, attempts := 3, delays := [5, 10] } := by
  have h := (C5_retry_protocol defaultConfig
    (fun j => if j < 2 then some 503 else some 201)
    Client.initClient 0 2 201
    (by norm_num [defaultConfig])
    (by intro j hj; interval_cases j <;> rfl)
    rfl (by norm_num)).1
  rw [h]
  norm_num [Client.backoffs, Client.initClient, defaultConfig]

/-- C6: exhausting all retries returns no response to the caller and
increments `consecutive_failures` by one; any returned response (a
terminal status) zeroes `consecutive_failures` and stamps
`last_success` with the current time; and `n` consecutive failed
operations with no intervening success accumulate
`consecutive_failures = n` — in particular `API_MAX_RETRIES` of them
leave it equal to `API_MAX_RETRIES`. -/
theorem C6_failure_accounting (cfg : Config) (env : ℕ → Client.Attempt)
    (st : Client.ClientState) (clock : ℚ) (n : ℕ) :
    ((∀ j, j < cfg.API_MAX_RETRIES → Client.retryableB (env j) = true) →
      Client.makeRequest cfg env st clock =
        { response := none,
          state := { st with
            consecutive_failures := st.consecutive_failures + 1 },
          clock := clock +
            (Client.backoffs cfg 0 (cfg.API_MAX_RETRIES - 1)).sum,
          attempts := cfg.API_MAX_RETRIES,
          delays := Client.backoffs cfg 0 (cfg.API_MAX_RETRIES - 1) }) ∧
    (∀ c, (Client.makeRequest cfg env st clock).response = some c →
      Client.ClientState.consecutive_failures
          (Client.makeRequest cfg env st clock).state = 0 ∧
      Client.ClientState.last_successful_request
          (Client.makeRequest cfg env st clock).state =
        some (Client.makeRequest cfg env st clock).clock) ∧
    ((∀ j, Client.retryableB (env j) = true) →
      (Client.runFailedOps cfg env n st clock).1.consecutive_failures =
        st.consecutive_failures + n) := by
  refine ⟨?_, ?_, ?_⟩
  · intro hall
    have h := Client.makeRequestAux_exhaust cfg env cfg.API_MAX_RETRIES
      0 st clock [] (by omega) (fun j _ hj2 => hall j hj2)
    unfold Client.makeRequest
    rw [h]
    simp
  · intro c hc
    exact Client.makeRequestAux_some_resets cfg env cfg.API_MAX_RETRIES
      0 st clock [] c hc
  · intro hall
    induction n generalizing st clock with
    | zero => simp [Client.runFailedOps]
    | succ n ih =>
        have h := Client.makeRequestAux_exhaust cfg env
          cfg.API_MAX_RETRIES 0 st clock [] (by omega)
          (fun j _ _ => hall j)
        simp only [Client.runFailedOps, Client.makeRequest, h]
        rw [ih]
        simp
        omega

/-- Witness for C6 at the shipped configuration: three 503 responses
exhaust the retries with no response and one failure counted, and
three such failed operations in a row accumulate
`consecutive_failures = 3 = API_MAX_RETRIES`. -/
theorem C6_witness :
    Client.makeRequest defaultConfig (fun _ => some 503)
      Client.initClient 0 =
      { response := none,
        state := { last_successful_request := none,
                   consecutive_failures := 1 },
        clock := 15, attempts := 3, delays := [5, 10] } ∧
    (Client.runFailedOps defaultConfig (fun _ => some 503) 3
      Client.initClient 0).1.consecutive_failures = 3 := by
  constructor
  · have h := (C6_failure_accounting defaultConfig (fun _ => some 503)
      Client.initClient 0 3).1 (fun j _ => rfl)
    rw [h]
    norm_num [Client.backoffs, Client.initClient, defaultConfig]
  · have h := (C6_failure_accounting defaultConfig (fun _ => some 503)
      Client.initClient 0 3).2.2 (fun j => rfl)
    rw [h]
    norm_num [Client.initClient]

namespace Monitor

/-- Python's scan-based `max` agrees with the spec's stable maximum:
the first element of maximal key wins ties. -/
theorem pyMaxBy_spec (ds : List Detection) :
    ∀ b, pyMaxBy detectionKey b ds =
      match specStableMax ds with
      | none => b
      | some m => if detectionKey b < detectionKey m then m else b := by
  induction ds with
  | nil => intro b; simp [pyMaxBy, specStableMax]
  | cons d ds ih =>
      intro b
      rw [pyMaxBy, ih]
      rcases hs : specStableMax ds with _ | m
      · by_cases h1 : detectionKey b < detectionKey d <;>
          simp [specStableMax, hs, h1]
      · by_cases hdm : detectionKey d < detectionKey m
        · by_cases h1 : detectionKey b < detectionKey d
          · have h2 : detectionKey b < detectionKey m := lt_trans h1 hdm
            simp [specStableMax, hs, hdm, h1, h2]
          · simp [specStableMax, hs, hdm, h1]
        · by_cases h1 : detectionKey b < detectionKey d
          · simp [specStableMax, hs, hdm, h1]
          · have h2 : ¬ detectionKey b < detectionKey m := by
              intro hbm
              exact h1 (lt_of_lt_of_le hbm (le_of_not_lt hdm))
            simp [specStableMax, hs, hdm, h1, h2]

end Monitor

/-- C7: the threshold merge of `update_thresholds_from_api` is a no-op
on an empty detection list; otherwise it selects the detection of
maximum confidence with ties broken by first occurrence (the stable
maximum), and applies its thresholds only when it carries a plant type
with a truthy thresholds object; and the field-wise update overwrites
exactly the fields present in the remote object, keeping every absent
field at its previous value (so the threshold set stays fully
populated). -/
theorem C7_threshold_merge (ms : Monitor.MergeState)
    (l : List Monitor.Detection) (t : Monitor.Thresholds)
    (p : Monitor.ThresholdPatch) :
    Monitor.update_thresholds_from_api ms [] = ms ∧
    (Monitor.update_thresholds_from_api ms l =
      match Monitor.specStableMax l with
      | none => ms
      | some dom =>
          match dom.plantType with
          | none => ms
          | some pt =>
              match pt.thresholds with
              | none => ms
              | some p2 =>
                  if p2.nonempty then
                    { thresholds := Monitor.applyPatch ms.thresholds p2,
                      identified_plant :=
                        some (pt.name.getD "Unknown") }
                  else ms) ∧
    ((∀ v, p.soil_min = some v →
        (Monitor.applyPatch t p).soil_min = v) ∧
     (p.soil_min = none →
        (Monitor.applyPatch t p).soil_min = t.soil_min) ∧
     (∀ v, p.soil_max = some v →
        (Monitor.applyPatch t p).soil_max = v) ∧
     (p.soil_max = none →
        (Monitor.applyPatch t p).soil_max = t.soil_max) ∧
     (∀ v, p.temp_min = some v →
        (Monitor.applyPatch t p).temp_min = v) ∧
     (p.temp_min = none →
        (Monitor.applyPatch t p).temp_min = t.temp_min) ∧
     (∀ v, p.temp_max = some v →
        (Monitor.applyPatch t p).temp_max = v) ∧
     (p.temp_max = none →
        (Monitor.applyPatch t p).temp_max = t.temp_max) ∧
     (∀ v, p.humidity_min = some v →
        (Monitor.applyPatch t p).humidity_min = v) ∧
     (p.humidity_min = none →
        (Monitor.applyPatch t p).humidity_min = t.humidity_min) ∧
     (∀ v, p.humidity_max = some v →
        (Monitor.applyPatch t p).humidity_max = v) ∧
     (p.humidity_max = none →
        (Monitor.applyPatch t p).humidity_max = t.humidity_max) ∧
     (∀ v, p.light_min = some v →
        (Monitor.applyPatch t p).light_min = v) ∧
     (p.light_min = none →
        (Monitor.applyPatch t p).light_min = t.light_min) ∧
     (∀ v, p.light_max = some v →
        (Monitor.applyPatch t p).light_max = v) ∧
     (p.light_max = none →
        (Monitor.applyPatch t p).light_max = t.light_max)) := by
  refine ⟨rfl, ?_, ?_⟩
  · rcases l with _ | ⟨d, ds⟩
    · rfl
    · rw [Monitor.update_thresholds_from_api, Monitor.pyMaxBy_spec ds d]
      rcases hs : Monitor.specStableMax ds with _ | m
      · simp only [Monitor.specStableMax, hs]
      · simp only [Monitor.specStableMax, hs]
        split_ifs <;> rfl
  · refine ⟨?_, ?_, ?_, ?_, ?_, ?_, ?_, ?_, ?_, ?_, ?_, ?_, ?_, ?_,
      ?_, ?_⟩ <;>
      first
        | (intro v hv; simp [Monitor.applyPatch, hv])
        | (intro h; simp [Monitor.applyPatch, h])

/-- Witness for C7: with detections of confidence 0.6 and 0.9, the 0.9
detection's thresholds are applied (fields present overwrite, absent
fields keep the defaults), and an empty payload leaves the state
unchanged. -/
theorem C7_witness :
    Monitor.update_thresholds_from_api
      { thresholds := Monitor.defaultThresholds,
        identified_plant := none } [] =
      { thresholds := Monitor.defaultThresholds,
        identified_plant := none } ∧
    Monitor.update_thresholds_from_api
      { thresholds := Monitor.defaultThresholds,
        identified_plant := none }
      [ { confidence := some (6/10),
          plantType := some
            { name := some "Fern",
              thresholds := some
                { Monitor.emptyPatch with soil_min := some 50 } } },
        { confidence := some (9/10),
          plantType := some
            { name := some "Cactus",
              thresholds := some
                { Monitor.emptyPatch with soil_min := some 10,
                                          soil_max := some 40 } } } ] =
      { thresholds :=
          { Monitor.defaultThresholds with soil_min := 10,
                                           soil_max := 40 },
        identified_plant := some "Cactus" } := by
  constructor
  · exact (C7_threshold_merge
      { thresholds := Monitor.defaultThresholds,
        identified_plant := none } [] Monitor.defaultThresholds
      Monitor.emptyPatch).1
  · rw [(C7_threshold_merge
      { thresholds := Monitor.defaultThresholds,
        identified_plant := none }
      [ { confidence := some (6/10),
          plantType := some
            { name := some "Fern",
              thresholds := some
                { Monitor.emptyPatch with soil_min := some 50 } } },
        { confidence := some (9/10),
          plantType := some
            { name := some "Cactus",
              thresholds := some
                { Monitor.emptyPatch with soil_min := some 10,
                                          soil_max := some 40 } } } ]
      Monitor.defaultThresholds Monitor.emptyPatch).2.1]
    norm_num [Monitor.specStableMax, Monitor.detectionKey,
      Monitor.ThresholdPatch.nonempty, Monitor.emptyPatch,
      Monitor.applyPatch, Monitor.defaultThresholds]

/-- C8 counterexample: one full telemetry interval after start, a
reading of 55 °C under `SAFETY_MAX_TEMP = 50` fails the validity check;
`process_telemetry` then makes no telemetry call (no network attempt is
consumed) but also leaves `last_telemetry_time` at 0 instead of
updating it to the tick time 15, contradicting the claim that the
timestamp is still updated so the check is not retried before the next
full interval. -/
theorem C8_counterexample :
    Orch.process_telemetry defaultConfig Orch.hotEnv
      { Orch.initWorld with clock := 15 } =
      .ok { Orch.initWorld with
            clock := 15, readCount := 1,
            lastReading := some (Orch.hotEnv.readings 0) } ∧
    Orch.World.last_telemetry_time
      { Orch.initWorld with
        clock := 15, readCount := 1,
        lastReading := some (Orch.hotEnv.readings 0) } = 0 ∧
    Orch.World.netCount
      { Orch.initWorld with
        clock := 15, readCount := 1,
        lastReading := some (Orch.hotEnv.readings 0) } = 0 ∧
    (0 : ℚ) ≠ 15 := by
  refine ⟨?_, rfl, rfl, by norm_num⟩
  norm_num [Orch.process_telemetry, Orch.read_all, Orch.is_reading_valid,
    Orch.initWorld, defaultConfig, Orch.hotEnv]

/-- C8 as amended: on a telemetry tick whose reading fails the validity
check, no telemetry send is made (no network attempt is consumed) and
`last_telemetry_time` is left unchanged, so the check is retried on the
next tick rather than after a full interval; and a reading whose
temperature exceeds `SAFETY_MAX_TEMP` always fails the validity
check. -/
theorem C8_invalid_reading_skipped (cfg : Config) (env : Orch.Env)
    (w : Orch.World)
    (helapsed : ¬ w.clock - w.last_telemetry_time <
      cfg.TELEMETRY_INTERVAL)
    (hinvalid : Orch.is_reading_valid cfg (env.readings w.readCount) =
      false) :
    Orch.process_telemetry cfg env w =
      .ok { w with readCount := w.readCount + 1,
                   lastReading := some (env.readings w.readCount) } ∧
    (∀ (r : Orch.Reading) (t : ℚ), cfg.ENABLE_SAFETY_CHECKS = true →
      r.temperature_c = some t → cfg.SAFETY_MAX_TEMP < t →
      Orch.is_reading_valid cfg r = false) := by
  constructor
  · unfold Orch.process_telemetry
    rw [if_neg helapsed]
    simp only [Orch.read_all]
    rw [hinvalid]
    simp
  · intro r t hs ht htemp
    unfold Orch.is_reading_valid
    rw [hs, ht]
    simp [htemp]

/-- Witness for C8's amended statement: a 55 °C reading at clock 30
with the last telemetry at 10 skips the send, consumes no network
attempt and keeps the stamp at 10. -/
theorem C8_witness :
    Orch.process_telemetry defaultConfig Orch.hotEnv
      { Orch.initWorld with clock := 30, last_telemetry_time := 10 } =
      .ok { Orch.initWorld with
            clock := 30, last_telemetry_time := 10, readCount := 1,
            lastReading := some (Orch.hotEnv.readings 0) } ∧
    Orch.is_reading_valid defaultConfig (Orch.hotEnv.readings 0) =
      false := by
  have h := C8_invalid_reading_skipped defaultConfig Orch.hotEnv
    { Orch.initWorld with clock := 30, last_telemetry_time := 10 }
    (by norm_num [Orch.initWorld, defaultConfig])
    (by norm_num [Orch.is_reading_valid, Orch.hotEnv, defaultConfig])
  refine ⟨h.1, ?_⟩
  exact h.2 (Orch.hotEnv.readings 0) 55 rfl rfl
    (by norm_num [defaultConfig])

namespace Orch

/-- `check_and_water_if_needed` never touches the three task
timestamps (it only drives the pump, the clock, the sensor and the
network client). -/
theorem check_water_keeps_stamps (cfg : Config) (env : Env)
    (w : World) (sd : Reading) (b : Bool) (w' : World)
    (h : check_and_water_if_needed cfg env w sd = .ok (b, w')) :
    w'.last_telemetry_time = w.last_telemetry_time ∧
    w'.last_image_time = w.last_image_time ∧
    w'.last_command_poll_time = w.last_command_poll_time := by
  unfold check_and_water_if_needed at h
  dsimp only [] at h
  split at h
  · simp only [Except.ok.injEq, Prod.mk.injEq] at h
    rcases h with ⟨-, rfl⟩
    exact ⟨rfl, rfl, rfl⟩
  · split at h
    · simp only [Except.ok.injEq, Prod.mk.injEq] at h
      rcases h with ⟨-, rfl⟩
      exact ⟨rfl, rfl, rfl⟩
    · split at h
      · split at h
        · simp at h
        · split at h
          · simp only [Except.ok.injEq, Prod.mk.injEq] at h
            rcases h with ⟨-, rfl⟩
            exact ⟨rfl, rfl, rfl⟩
          · simp only [Except.ok.injEq, Prod.mk.injEq] at h
            rcases h with ⟨-, rfl⟩
            exact ⟨rfl, rfl, rfl⟩
      · simp only [Except.ok.injEq, Prod.mk.injEq] at h
        rcases h with ⟨-, rfl⟩
        exact ⟨rfl, rfl, rfl⟩

end Orch

/-- C9 as amended: on a tick whose elapsed time reaches the task's
interval, each task body runs, and the last-run timestamp is stamped
with the time captured when the tick began — not the time the body
completed — and only on the paths that reach the end of the body: the
telemetry task stamps after a valid reading, the image task stamps
after a successful capture but not after a failed one, and the
command task stamps on every completed poll. -/
theorem C9_task_stamping (cfg : Config) (env : Orch.Env)
    (w : Orch.World) :
    ((¬ w.clock - w.last_telemetry_time < cfg.TELEMETRY_INTERVAL) →
     Orch.is_reading_valid cfg (env.readings w.readCount) = true →
     ∀ w', Orch.process_telemetry cfg env w = .ok w' →
       w'.last_telemetry_time = w.clock) ∧
    ((¬ w.clock - w.last_image_time < cfg.IMAGE_CAPTURE_INTERVAL) →
     ((∀ n, env.capture w.captureCount = some n →
        (Orch.process_image_capture cfg env w).last_image_time =
          w.clock) ∧
      (env.capture w.captureCount = none →
        Orch.process_image_capture cfg env w =
          { w with captureCount := w.captureCount + 1 }))) ∧
    ((¬ w.clock - w.last_command_poll_time < cfg.COMMAND_POLL_INTERVAL)
     →
     ∀ w', Orch.process_commands cfg env w = .ok w' →
       w'.last_command_poll_time = w.clock) := by
  refine ⟨?_, ?_, ?_⟩
  · intro htel hv w' h
    unfold Orch.process_telemetry at h
    rw [if_neg htel] at h
    dsimp only [Orch.read_all] at h
    rw [hv] at h
    rw [if_neg (by decide : ¬ (true = false))] at h
    split at h
    · split at h
      · simp at h
      · rename_i p hp
        obtain ⟨pb, pw⟩ := p
        simp only [Except.ok.injEq] at h
        subst h
        have hk := (Orch.check_water_keeps_stamps cfg env _ _ pb pw
          hp).1
        simpa using hk
    · simp only [Except.ok.injEq] at h
      subst h
      rfl
  · intro himg
    constructor
    · intro n hn
      unfold Orch.process_image_capture
      rw [if_neg himg]
      dsimp only []
      rw [hn]
      dsimp only []
      split <;> rfl
    · intro hn
      unfold Orch.process_image_capture
      rw [if_neg himg]
      dsimp only []
      rw [hn]
  · intro hcmd w' h
    unfold Orch.process_commands at h
    rw [if_neg hcmd] at h
    dsimp only [] at h
    split at h
    · simp only [Except.ok.injEq] at h
      subst h
      rfl
    · split at h
      · simp at h
      · simp only [Except.ok.injEq] at h
        subst h
        rfl

/-- C9 counterexample: a telemetry tick beginning at time 15 whose
body sleeps a 5-second retry backoff (first attempt 503, then 201)
completes at time 20, yet `last_telemetry_time` is stamped with 15 —
the time the tick began — contradicting the claim that the timestamp
is stamped with the time at which the body completes. -/
theorem C9_counterexample :
    Orch.process_telemetry defaultConfig Orch.slowNetEnv
      { Orch.initWorld with clock := 15, last_auto_water_check := 15 }
      =
      .ok { Orch.initWorld with
            clock := 20, last_telemetry_time := 15,
            last_auto_water_check := 15,
            lastReading := some (Orch.slowNetEnv.readings 0),
            client := { last_successful_request := some 20,
                        consecutive_failures := 0 },
            readCount := 1, netCount := 2 } ∧
    (15 : ℚ) ≠ 20 := by
  refine ⟨?_, by norm_num⟩
  norm_num [Orch.process_telemetry, Orch.read_all,
    Orch.is_reading_valid, Orch.send_telemetry, Orch.wRequest,
    Client.makeRequest, Client.makeRequestAux, Client.initClient,
    Orch.initWorld, defaultConfig, Orch.slowNetEnv]

/-- Witness for C9's amended statement: a command-poll tick beginning
at time 10 whose poll sleeps one 5-second backoff completes at time
15, and `last_command_poll_time` is stamped with the tick-begin time
10. -/
theorem C9_witness :
    Orch.World.last_command_poll_time
      { Orch.initWorld with
        last_command_poll_time := 10,
        client := { last_successful_request := some 15,
                    consecutive_failures := 0 },
        clock := 15, netCount := 2, pollCount := 1 } = 10 := by
  have h := (C9_task_stamping defaultConfig Orch.slowNetEnv
    { Orch.initWorld with clock := 10 }).2.2
    (by norm_num [Orch.initWorld, defaultConfig])
    { Orch.initWorld with
      last_command_poll_time := 10,
      client := { last_successful_request := some 15,
                  consecutive_failures := 0 },
      clock := 15, netCount := 2, pollCount := 1 }
    (by norm_num [Orch.process_commands, Orch.poll_commands,
      Orch.wRequest, Client.makeRequest, Client.makeRequestAux,
      Client.initClient, Orch.initWorld, defaultConfig,
      Orch.slowNetEnv])
  exact h
